import Mathlib

/-!
Verification of the powerbi-annotator extension core against its
natural-language specification.

The definitions below are a shallow embedding of the relevant parts of
`src/content/content.js`, `src/background/background.js`, and the revised
content script embedded in `REVIEW.md` (screenshot cache, CSV export,
multi-page export).  JavaScript objects used as string-keyed maps are
modelled as insertion-ordered association lists with JavaScript object
semantics: assigning to an existing key overwrites in place (keeping the
insertion position), assigning a fresh key appends, and `Object.keys`
returns keys in insertion order.
-/

namespace PowerBIAnnotator

/-- JavaScript object property read: `m[k]` as an insertion-ordered map. -/
def jsGet {α : Type} : List (String × α) → String → Option α
  | [], _ => none
  | (k, v) :: rest, key => if k = key then some v else jsGet rest key

/-- JavaScript object property write: `m[k] = v`.  Overwriting keeps the
original insertion position; a fresh key is appended at the end. -/
def jsSet {α : Type} : List (String × α) → String → α → List (String × α)
  | [], key, v => [(key, v)]
  | (k, v0) :: rest, key, v =>
      if k = key then (key, v) :: rest else (k, v0) :: jsSet rest key v

/-- JavaScript `delete m[k]`: removes the entry for `k` (first occurrence). -/
def jsDelete {α : Type} : List (String × α) → String → List (String × α)
  | [], _ => []
  | (k, v) :: rest, key => if k = key then rest else (k, v) :: jsDelete rest key

/-- One annotation record, with the fields the verified operations read
(`content.js` creates records with id, geometry, tool, color, comment,
timestamp; geometry and tool are irrelevant to the claims below). -/
structure AnnotationRecord where
  id : Nat
  comment : String
  timestamp : Nat
deriving DecidableEq, Repr

/-- The all-pages map stored under the `annotations` storage key:
pageKey to ordered list of annotation records. -/
abbrev AnnotationMap := List (String × List AnnotationRecord)

/-- State of the content script relevant to the annotation store:
`stored` is the persisted map in `chrome.storage.local`,
`allAnnotationsCache` the in-memory cache (null before the initial load),
`annotations` the current page list, `pageKey` the current page key
(pathname + search), `legacyKey` the pathname-only legacy key. -/
structure ContentScriptState where
  stored : AnnotationMap
  allAnnotationsCache : Option AnnotationMap
  annotations : List AnnotationRecord
  pageKey : String
  legacyKey : String

/-- Function `saveAnnotations` from `content.js`: when the cache is not yet loaded
it reads the stored map, merges the current page list, and writes the
result back (read-merge-write); when the cache is loaded it writes the
current page list into the cache and persists the whole cache. -/
def saveAnnotations (s : ContentScriptState) : ContentScriptState :=
  match s.allAnnotationsCache with
  | none =>
      let c := jsSet s.stored s.pageKey s.annotations
      { s with stored := c, allAnnotationsCache := some c }
  | some cache =>
      let c := jsSet cache s.pageKey s.annotations
      { s with stored := c, allAnnotationsCache := some c }

/-- Function `loadAnnotations` from `content.js`: hydrates the in-memory cache from
storage, takes the current page bucket, and migrates a legacy
pathname-only bucket once when the new key has no data (a present legacy
bucket is truthy in JavaScript even when empty, hence `isSome`). -/
def loadAnnotations (s : ContentScriptState) : ContentScriptState :=
  let all := s.stored
  let anns := (jsGet all s.pageKey).getD []
  if anns.isEmpty ∧ s.legacyKey ≠ s.pageKey ∧ (jsGet all s.legacyKey).isSome then
    let migrated := (jsGet all s.legacyKey).getD []
    let all1 := jsSet all s.pageKey migrated
    let all2 := jsDelete all1 s.legacyKey
    { s with stored := all2, allAnnotationsCache := some all2, annotations := migrated }
  else
    { s with stored := all, allAnnotationsCache := some all, annotations := anns }

/-- The cache-coherence invariant of the content script: either the
initial load has not completed (`allAnnotationsCache` is null) or the
cache equals the stored map. -/
def cacheInSync (s : ContentScriptState) : Prop :=
  s.allAnnotationsCache = none ∨ s.allAnnotationsCache = some s.stored

/-- Function `generateAnnotationId` from `content.js`:
`Date.now() * 100 + (annotationIdCounter++ % 100)`.
Takes the clock reading and the counter, returns the id and the stepped
counter. -/
def generateAnnotationId (now counter : Nat) : Nat × Nat :=
  (now * 100 + counter % 100, counter + 1)

/-- The ids produced by a session-long sequence of calls to
`generateAnnotationId`: one clock reading per call, threading the global
counter. -/
def genIds : List Nat → Nat → List Nat
  | [], _ => []
  | t :: ts, c => (generateAnnotationId t c).1 :: genIds ts (generateAnnotationId t c).2

/-- The `screenshotResult` message sent by `background.js`: either a
captured data URL or an error string. -/
structure ScreenshotMessage where
  screenshot : Option String
  error : Option String
deriving DecidableEq, Repr

/-- State of a JavaScript promise over its resolution value. -/
inductive PromiseState (α : Type) where
  | pending
  | resolved (value : α)
deriving DecidableEq, Repr

/-- State of the in-page wait in `waitForScreenshotOrCancel`:
whether `screenshotResolver` is set, and the awaited promise, which
resolves with the screenshot message or with null on cancel. -/
structure WaitState where
  resolverSet : Bool
  promise : PromiseState (Option ScreenshotMessage)
deriving DecidableEq, Repr

/-- The state produced by calling `waitForScreenshotOrCancel`: the
resolver is installed and the promise is pending. -/
def waitForScreenshotOrCancel : WaitState :=
  { resolverSet := true, promise := PromiseState.pending }

/-- The `screenshotResult` branch of the content-script message listener:
if the resolver is set, call it with the message (resolving the promise)
and clear it; otherwise ignore the message. -/
def onScreenshotResultMessage (s : WaitState) (msg : ScreenshotMessage) : WaitState :=
  if s.resolverSet then
    { resolverSet := false, promise := PromiseState.resolved (some msg) }
  else s

/-- The cancel-button handler inside `waitForScreenshotOrCancel`: clears
the resolver, notifies the background (`cancelCapture`), and resolves the
promise with null. -/
def onCancelClick (_s : WaitState) : WaitState :=
  { resolverSet := false, promise := PromiseState.resolved none }

/-- Outcome of `chrome.tabs.captureVisibleTab` inside `captureAndSend`. -/
inductive CaptureEngineResult where
  | ok (dataUrl : String)
  | err (message : String)
deriving DecidableEq, Repr

/-- The `screenshotResult` message `captureAndSend` in `background.js`
sends for each capture-engine outcome. -/
def captureAndSendMessage : CaptureEngineResult → ScreenshotMessage
  | CaptureEngineResult.ok u => { screenshot := some u, error := none }
  | CaptureEngineResult.err m => { screenshot := none, error := some m }

/-- The three terminal outcomes of one export capture handshake. -/
inductive CaptureOutcome where
  | captured (r : CaptureEngineResult)
  | cancelled
deriving DecidableEq, Repr

/-- One full capture handshake, starting from the armed wait state:
either the privileged side responds (success or error) or the user
cancels. -/
def runCaptureHandshake : CaptureOutcome → WaitState
  | CaptureOutcome.captured r =>
      onScreenshotResultMessage waitForScreenshotOrCancel (captureAndSendMessage r)
  | CaptureOutcome.cancelled => onCancelClick waitForScreenshotOrCancel

/-- State of `background.js`: the in-memory `pendingCapture` variable,
its durable copy in `chrome.storage.session`, and the action badge text. -/
structure BackgroundState where
  pendingCapture : Option Nat
  sessionPendingCapture : Option Nat
  badgeText : String
deriving DecidableEq, Repr

/-- Function `setPendingCapture` from `background.js`: records the single pending
token in memory and in session storage and shows the badge. -/
def setPendingCapture (_s : BackgroundState) (tabId : Nat) : BackgroundState :=
  { pendingCapture := some tabId
    sessionPendingCapture := some tabId
    badgeText := "📸" }

/-- Function `clearPendingCapture` from `background.js`: drops the token from
memory and session storage and clears the badge. -/
def clearPendingCapture (_s : BackgroundState) : BackgroundState :=
  { pendingCapture := none, sessionPendingCapture := none, badgeText := "" }

/-- What an icon click does: run `captureAndSend` for the tab, or send the
default `toggleSidebar` message. -/
inductive ClickOutcome where
  | captureAndSend (tabId : Nat)
  | toggleSidebar (tabId : Nat)
deriving DecidableEq, Repr

/-- Slow path of the `chrome.action.onClicked` listener: read the durable
session record; on a match re-derive the in-memory token and capture
(`captureAndSend` clears the token when done), otherwise toggle the
sidebar. -/
def onActionClickedSlow (s : BackgroundState) (tabId : Nat) :
    ClickOutcome × BackgroundState :=
  match s.sessionPendingCapture with
  | some t =>
      if t = tabId then
        (ClickOutcome.captureAndSend tabId,
         clearPendingCapture { s with pendingCapture := some t })
      else (ClickOutcome.toggleSidebar tabId, s)
  | none => (ClickOutcome.toggleSidebar tabId, s)

/-- The `chrome.action.onClicked` listener from `background.js`: fast path
on the in-memory token, falling back to the session-storage record. -/
def onActionClicked (s : BackgroundState) (tabId : Nat) :
    ClickOutcome × BackgroundState :=
  match s.pendingCapture with
  | some t =>
      if t = tabId then (ClickOutcome.captureAndSend tabId, clearPendingCapture s)
      else onActionClickedSlow s tabId
  | none => onActionClickedSlow s tabId

/-- A service-worker restart: in-memory state is lost, session storage
and the browser-held badge survive. -/
def serviceWorkerRestart (s : BackgroundState) : BackgroundState :=
  { pendingCapture := none
    sessionPendingCapture := s.sessionPendingCapture
    badgeText := s.badgeText }

/-- Messages handled by the `chrome.runtime.onMessage` listener in
`background.js` that touch the pending token. -/
inductive RuntimeMessage where
  | prepareCapture (senderTabId : Nat)
  | cancelCapture (senderTabId : Nat)
deriving DecidableEq, Repr

/-- The `chrome.runtime.onMessage` listener of `background.js`:
`prepareCapture` records the sender tab, `cancelCapture` clears the token
unconditionally, regardless of which tab sends it. -/
def onRuntimeMessage (s : BackgroundState) : RuntimeMessage → BackgroundState
  | RuntimeMessage.prepareCapture t => setPendingCapture s t
  | RuntimeMessage.cancelCapture _ => clearPendingCapture s

/-- The geometric output of `cropScreenshotToCanvas`: destination canvas
size and the source rectangle drawn from the captured image. -/
structure CropOutput where
  canvasWidth : ℚ
  canvasHeight : ℚ
  sourceX : ℚ
  sourceY : ℚ
  sourceWidth : ℚ
  sourceHeight : ℚ
deriving DecidableEq, Repr

/-- The crop transform of `cropScreenshotToCanvas` in `content.js`:
canvas sized to the target rectangle times devicePixelRatio, source
coordinates computed through
`scale = imgSize / (viewportCSSSize * dpr)` and `source = rect * dpr * scale`. -/
def cropScreenshotToCanvas (imgWidth imgHeight innerWidth innerHeight dpr
    rectLeft rectTop rectWidth rectHeight : ℚ) : CropOutput :=
  let scaleX := imgWidth / (innerWidth * dpr)
  let scaleY := imgHeight / (innerHeight * dpr)
  { canvasWidth := rectWidth * dpr
    canvasHeight := rectHeight * dpr
    sourceX := rectLeft * dpr * scaleX
    sourceY := rectTop * dpr * scaleY
    sourceWidth := rectWidth * dpr * scaleX
    sourceHeight := rectHeight * dpr * scaleY }

/-- A DOM element as far as `getReportCanvas` observes it: whether it is a
div, the selectors it matches, and its bounding client rectangle size. -/
structure DomElem where
  isDiv : Bool
  sels : List String
  width : ℚ
  height : ℚ
deriving DecidableEq, Repr

/-- The fixed ordered selector list of `getReportCanvas` in `content.js`. -/
def canvasSelectors : List String :=
  ["div[class*=\"explorationContainer\"]",
   "div.explorationContainer",
   "visual-container-repeat",
   "explore-canvas-modern",
   "iframe[title*=\"Report\"]",
   ".reportCanvas",
   ".visualContainer"]

/-- Model of `document.querySelector`: the first element in document order
matching the selector. -/
def querySelectorFirst (dom : List DomElem) (sel : String) : Option DomElem :=
  dom.find? (fun e => e.sels.contains sel)

/-- The selector probe loop of `getReportCanvas`: first selector with a
match wins. -/
def findBySelectors (dom : List DomElem) : List String → Option DomElem
  | [] => none
  | sel :: rest =>
      match querySelectorFirst dom sel with
      | some e => some e
      | none => findBySelectors dom rest

/-- Function `getReportCanvas` from `content.js`, including its fallback: when all
selectors miss, it filters divs larger than 800 by 400 CSS pixels and
returns the one with the largest area (the `reduce` keeps the earlier
element on ties); only when that set is empty does it return null. -/
def getReportCanvas (dom : List DomElem) : Option DomElem :=
  match findBySelectors dom canvasSelectors with
  | some e => some e
  | none =>
      let contentDivs := dom.filter
        (fun e => e.isDiv && decide (800 < e.width) && decide (400 < e.height))
      match contentDivs with
      | [] => none
      | d :: rest =>
          some (rest.foldl
            (fun largest current =>
              if largest.width * largest.height < current.width * current.height
              then current else largest) d)

/-- PPTX slide margin (inches), from `generatePptx`. -/
def pptxMargin : ℚ := 0.3

/-- PPTX title height (inches), from `generatePptx`. -/
def pptxTitleH : ℚ := 0.4

/-- PPTX content-area top: `titleY + titleH + 0.2`. -/
def pptxContentY : ℚ := pptxMargin + pptxTitleH + 0.2

/-- PPTX content-area height: `slideH - contentY - margin` with a 7.5 inch
slide. -/
def pptxContentH : ℚ := 7.5 - pptxContentY - pptxMargin

/-- PPTX comment-column height: `contentH - 0.35`. -/
def commentsListH : ℚ := pptxContentH - 0.35

/-- PPTX per-comment line height (inches). -/
def commentLineH : ℚ := 0.28

/-- Constant `maxCommentsPerSlide = Math.floor(commentsListH / commentLineH)`. -/
def maxCommentsPerSlide : ℕ := (commentsListH / commentLineH).floor.toNat

/-- The comment loop of `generatePptx` for one-line comments: before each
comment, when the slide already carries `maxCommentsPerSlide` comments a
new slide is started (with the `(continued)` title) and the per-slide
count resets; placing a comment advances the count. -/
def pptxSlideLoop : ℕ → ℕ → ℕ → ℕ
  | 0, _, slides => slides
  | n + 1, onSlide, slides =>
      if maxCommentsPerSlide ≤ onSlide then pptxSlideLoop n 1 (slides + 1)
      else pptxSlideLoop n (onSlide + 1) slides

/-- Number of slides `generatePptx` produces for `n` one-line comments:
one slide exists before the loop. -/
def generatePptxSlideCount (n : ℕ) : ℕ := pptxSlideLoop n 0 1

/-- PDF line height in mm, from `generatePdf`. -/
def pdfLineHeight : ℚ := 8

/-- A4 landscape page height in mm. -/
def pdfPageH : ℚ := 210

/-- PDF page margin in mm. -/
def pdfMargin : ℚ := 10

/-- PDF content-area top: `margin + titleH + 5` with a 12 mm title band. -/
def pdfContentY : ℚ := pdfMargin + 12 + 5

/-- Cursor position of the first PDF comment: `contentY + 12`. -/
def pdfCommentsStartY : ℚ := pdfContentY + 12

/-- Cursor advance for a one-line comment:
`Math.max(lineHeight, lines.length * 4)` with one wrapped line. -/
def pdfOneLineAdvance : ℚ := max pdfLineHeight (1 * 4)

/-- The comment loop of `generatePdf` for one-line comments: before each
comment, if the cursor plus one line would pass the bottom margin, a new
page is started, the cursor resets to `margin + 10`, the
`Comments (continued)` header is placed and the cursor advances 10 mm;
then the comment is placed and the cursor advances one line. -/
def pdfPageLoop : ℕ → ℚ → ℕ → ℕ
  | 0, _, pages => pages
  | n + 1, currentY, pages =>
      if pdfPageH - pdfMargin < currentY + pdfLineHeight then
        pdfPageLoop n ((pdfMargin + 10 + 10) + pdfOneLineAdvance) (pages + 1)
      else pdfPageLoop n (currentY + pdfOneLineAdvance) pages

/-- Number of pages `generatePdf` produces for `n` one-line comments: the
document starts with one page and the cursor at `pdfCommentsStartY`. -/
def generatePdfPageCount (n : ℕ) : ℕ := pdfPageLoop n pdfCommentsStartY 1

/-- Capacity-counting abstraction of the PDF comment loop: `cap` comments
still fit on the current page; a fresh overflow page holds 21 one-line
comments (cursor 30 mm to the 200 mm limit), one of which is consumed on
arrival. -/
def pdfNatLoop : ℕ → ℕ → ℕ → ℕ
  | 0, _, pages => pages
  | n + 1, 0, pages => pdfNatLoop n 20 (pages + 1)
  | n + 1, cap + 1, pages => pdfNatLoop n cap pages

/-- The height of the PDF comment column as the spec reads it: from the
first comment cursor position down to the bottom margin. -/
def pdfCommentColumnH : ℚ := (pdfPageH - pdfMargin) - pdfCommentsStartY

/-- The per-page comment capacity the claim formula
`ceil(n / floor(H / h))` assigns to the PDF export. -/
def pdfClaimCapacity : ℕ := (pdfCommentColumnH / pdfLineHeight).floor.toNat

/-- Screenshot cache: pageKey to data URL, insertion ordered. -/
abbrev ScreenshotCache := List (String × String)

/-- The cache update inside `cacheCurrentScreenshot` (REVIEW.md revised
content script), run when a screenshot arrives: insert or overwrite the
entry, evict the first key of `Object.keys` when the size exceeds 20,
then persist the returned map. -/
def cacheCurrentScreenshot (cache : ScreenshotCache) (key img : String) :
    ScreenshotCache :=
  let c := jsSet cache key img
  let keys := c.map Prod.fst
  if 20 < keys.length then
    match keys with
    | [] => c
    | k0 :: _ => jsDelete c k0
  else c

/-- The screenshot-cache write inside `generateMultiPagePresentation`
(REVIEW.md revised content script): the freshly captured current-page
screenshot is stored and the cache persisted, with no eviction. -/
def multiPageExportCacheWrite (cache : ScreenshotCache) (key img : String) :
    ScreenshotCache :=
  jsSet cache key img

/-- A 20-entry screenshot cache with distinct page keys. -/
def fullCache20 : ScreenshotCache :=
  (List.range 20).map (fun i => ("/report/page" ++ toString i, "img" ++ toString i))

/-- One page entry handed to `buildCsvRows`: page label and its
annotation list in insertion order. -/
structure PageData where
  name : String
  annotations : List AnnotationRecord
deriving Repr

/-- CSV cell quoting from `buildCsvRows` (REVIEW.md revised content
script): a cell containing a comma, a quote or a newline is wrapped in
quotes with internal quotes doubled.  The JavaScript `includes` checks
and the global quote `replace` are modelled on the character sequence of
the string. -/
def escapeCsvCell (s : String) : String :=
  if s.data.contains ',' || s.data.contains '"' || s.data.contains '\n' then
    String.mk ('"' :: s.data.flatMap (fun ch => if ch = '"' then ['"', '"'] else [ch]) ++ ['"'])
  else s

/-- The inner annotation loop of `buildCsvRows` for one page, threading
the global row counter. -/
def pageRows (fmt : Nat → String) (name : String) :
    List AnnotationRecord → Nat → List (List String)
  | [], _ => []
  | a :: rest, n =>
      [toString n, name, fmt a.timestamp, a.comment] :: pageRows fmt name rest (n + 1)

/-- The page loop of `buildCsvRows`: rows page by page, the global
counter carried across pages. -/
def buildAllRows (fmt : Nat → String) : List PageData → Nat → List (List String)
  | [], _ => []
  | p :: ps, n =>
      pageRows fmt p.name p.annotations n ++
        buildAllRows fmt ps (n + p.annotations.length)

/-- Function `buildCsvRows` (REVIEW.md revised content script): header line, then
one escaped, comma-joined line per annotation, all joined by newlines.
`fmt` stands for `Date.toLocaleDateString` on the stored timestamp. -/
def buildCsvRows (fmt : Nat → String) (pages : List PageData) : String :=
  String.intercalate "\n"
    ("No,Page Name,Date,Comment" ::
      (buildAllRows fmt pages 1).map
        (fun row => String.intercalate "," (row.map escapeCsvCell)))

/-- Numbering with a single global counter: row k of the flattened list
gets ordinal n + k. -/
def numberRows : List (List String) → Nat → List (List String)
  | [], _ => []
  | r :: rs, n => (toString n :: r) :: numberRows rs (n + 1)

/-- The spec-side description of the CSV body (used to compare with the
source-derived `buildAllRows`): flatten one (label, date, comment) triple
per annotation, page by page in insertion order, then prefix each row
with a single global counter starting at 1. -/
def specCsvRows (fmt : Nat → String) (pages : List PageData) : List (List String) :=
  numberRows
    (pages.flatMap (fun p =>
      p.annotations.map (fun a => [p.name, fmt a.timestamp, a.comment]))) 1

/-! ## Map lemmas -/

theorem jsGet_jsSet_ne {α : Type} (m : List (String × α)) (k key : String)
    (v : α) (h : k ≠ key) : jsGet (jsSet m key v) k = jsGet m k := by
  induction m with
  | nil => simp [jsSet, jsGet, Ne.symm h]
  | cons hd tl ih =>
      obtain ⟨k0, v0⟩ := hd
      by_cases hk : k0 = key
      · subst hk
        simp [jsSet, jsGet, h, Ne.symm h]
      · simp only [jsSet, if_neg hk]
        by_cases hk2 : k0 = k
        · simp [jsGet, hk2]
        · simp [jsGet, hk2, ih]

theorem jsSet_length_mem {α : Type} (m : List (String × α)) (key : String)
    (v : α) (h : key ∈ m.map Prod.fst) : (jsSet m key v).length = m.length := by
  induction m with
  | nil => simp at h
  | cons hd tl ih =>
      obtain ⟨k0, v0⟩ := hd
      by_cases hk : k0 = key
      · simp [jsSet, hk]
      · simp only [List.map_cons, List.mem_cons] at h
        have hmem : key ∈ tl.map Prod.fst := by
          rcases h with h | h
          · exact absurd h.symm hk
          · exact h
        simp [jsSet, hk, ih hmem]

theorem jsSet_length_not_mem {α : Type} (m : List (String × α)) (key : String)
    (v : α) (h : key ∉ m.map Prod.fst) : (jsSet m key v).length = m.length + 1 := by
  induction m with
  | nil => simp [jsSet]
  | cons hd tl ih =>
      obtain ⟨k0, v0⟩ := hd
      simp only [List.map_cons, List.mem_cons, not_or] at h
      simp [jsSet, Ne.symm h.1, ih h.2]

theorem jsSet_not_mem_append {α : Type} (m : List (String × α)) (key : String)
    (v : α) (h : key ∉ m.map Prod.fst) : jsSet m key v = m ++ [(key, v)] := by
  induction m with
  | nil => simp [jsSet]
  | cons hd tl ih =>
      obtain ⟨k0, v0⟩ := hd
      simp only [List.map_cons, List.mem_cons, not_or] at h
      simp [jsSet, Ne.symm h.1, ih h.2]

theorem jsDelete_cons_self {α : Type} (k0 : String) (v0 : α)
    (rest : List (String × α)) : jsDelete ((k0, v0) :: rest) k0 = rest := by
  simp [jsDelete]

/-! ## C1 — save() only touches the current page key -/

/-- C1: every call to `saveAnnotations` changes the persisted all-pages
map only at the current page key — all other page buckets keep their
previous stored value; when the in-memory cache is not yet loaded the
write is exactly the read-merge-write `stored[pageKey] := annotations`;
and the cache-coherence invariant used as hypothesis is reestablished by
`saveAnnotations` itself and established by `loadAnnotations` from any
state, so it holds throughout a run of the content script. -/
theorem c1_save_only_touches_current_page (s : ContentScriptState)
    (hsync : cacheInSync s) :
    (∀ k, k ≠ s.pageKey →
      jsGet (saveAnnotations s).stored k = jsGet s.stored k)
    ∧ (s.allAnnotationsCache = none →
        (saveAnnotations s).stored = jsSet s.stored s.pageKey s.annotations)
    ∧ cacheInSync (saveAnnotations s)
    ∧ cacheInSync (loadAnnotations s) := by
  refine ⟨?_, ?_, ?_, ?_⟩
  · intro k hk
    rcases hsync with hnone | hsome
    · simp only [saveAnnotations, hnone]
      exact jsGet_jsSet_ne _ _ _ _ hk
    · rcases hcache : s.allAnnotationsCache with _ | c
      · simp only [saveAnnotations, hcache]
        exact jsGet_jsSet_ne _ _ _ _ hk
      · rw [hcache] at hsome
        obtain rfl : c = s.stored := by injection hsome
        simp only [saveAnnotations, hcache]
        exact jsGet_jsSet_ne _ _ _ _ hk
  · intro hnone
    simp [saveAnnotations, hnone]
  · rcases hcache : s.allAnnotationsCache with _ | c <;>
      simp [saveAnnotations, hcache, cacheInSync]
  · by_cases hmig : (jsGet s.stored s.pageKey).getD [] = []
        ∧ ¬s.legacyKey = s.pageKey ∧ (jsGet s.stored s.legacyKey).isSome = true <;>
      simp [loadAnnotations, cacheInSync, hmig]

/-- Witness for C1 at a concrete pre-load state: the cache is null, the
store holds a bucket for another page; after `saveAnnotations`, the other
page bucket is unchanged and the write is the read-merge-write merge. -/
theorem c1_save_only_touches_current_page_witness :
    cacheInSync
      { stored := [("/r/other", [⟨1, "A", 10⟩])],
        allAnnotationsCache := none,
        annotations := [⟨2, "B", 20⟩],
        pageKey := "/r/1?x=1", legacyKey := "/r/1" }
    ∧ jsGet (saveAnnotations
      { stored := [("/r/other", [⟨1, "A", 10⟩])],
        allAnnotationsCache := none,
        annotations := [⟨2, "B", 20⟩],
        pageKey := "/r/1?x=1", legacyKey := "/r/1" }).stored "/r/other"
      = some [⟨1, "A", 10⟩] := by
  constructor
  · exact Or.inl rfl
  · have h := (c1_save_only_touches_current_page
      { stored := [("/r/other", [⟨1, "A", 10⟩])],
        allAnnotationsCache := none,
        annotations := [⟨2, "B", 20⟩],
        pageKey := "/r/1?x=1", legacyKey := "/r/1" } (Or.inl rfl)).1
      "/r/other" (by decide)
    rw [h]
    rfl

/-! ## C2 — the capture handshake always resolves -/

/-- C2: for every export capture handshake the awaited promise is
resolved in each of the three terminal outcomes — capture success
(resolved with the screenshot message), capture-engine error (resolved
with the error payload), and user cancellation (resolved with null) —
and in no outcome does it remain pending; moreover a stale
`screenshotResult` arriving after cancellation leaves the promise
resolved with null rather than reviving the wait. -/
theorem c2_handshake_always_resolves :
    (∀ u, runCaptureHandshake (CaptureOutcome.captured (CaptureEngineResult.ok u))
      = { resolverSet := false,
          promise := PromiseState.resolved (some { screenshot := some u, error := none }) })
    ∧ (∀ m, runCaptureHandshake (CaptureOutcome.captured (CaptureEngineResult.err m))
      = { resolverSet := false,
          promise := PromiseState.resolved (some { screenshot := none, error := some m }) })
    ∧ runCaptureHandshake CaptureOutcome.cancelled
      = { resolverSet := false, promise := PromiseState.resolved none }
    ∧ (∀ o, (runCaptureHandshake o).promise ≠ PromiseState.pending)
    ∧ (∀ msg, onScreenshotResultMessage
        (onCancelClick waitForScreenshotOrCancel) msg
        = { resolverSet := false, promise := PromiseState.resolved none }) := by
  refine ⟨fun u => rfl, fun m => rfl, rfl, ?_, fun msg => rfl⟩
  intro o
  rcases o with r | _
  · rcases r with u | m <;> simp [runCaptureHandshake, waitForScreenshotOrCancel,
      onScreenshotResultMessage, captureAndSendMessage]
  · simp [runCaptureHandshake, waitForScreenshotOrCancel, onCancelClick]

/-! ## C3 — the pending token survives a service-worker restart -/

/-- C3: if the background service worker restarts while a capture is
armed, a subsequent click on the armed tab still runs `captureAndSend`,
because the token is re-derived from the durable
`chrome.storage.session` record; and when no durable record matches the
clicking tab (and no in-memory token exists), the click performs the
default `toggleSidebar` action instead of failing silently. -/
theorem c3_restart_preserves_pending_capture (s s2 : BackgroundState)
    (t t2 : Nat) (hmem : s2.pendingCapture = none)
    (hsess : ∀ u, s2.sessionPendingCapture = some u → u ≠ t2) :
    (onActionClicked (serviceWorkerRestart (setPendingCapture s t)) t).1
      = ClickOutcome.captureAndSend t
    ∧ (onActionClicked s2 t2).1 = ClickOutcome.toggleSidebar t2 := by
  constructor
  · simp [onActionClicked, serviceWorkerRestart, setPendingCapture, onActionClickedSlow]
  · rcases hu : s2.sessionPendingCapture with _ | u
    · simp [onActionClicked, hmem, onActionClickedSlow, hu]
    · have hne : u ≠ t2 := hsess u hu
      simp [onActionClicked, hmem, onActionClickedSlow, hu, hne]

/-- Witness for C3: a capture armed for tab 4 survives a restart and a
click on tab 4 captures; with an empty session store, a click on tab 9
toggles the sidebar. -/
theorem c3_restart_preserves_pending_capture_witness :
    ({ pendingCapture := none, sessionPendingCapture := none,
       badgeText := "" } : BackgroundState).pendingCapture = none
    ∧ (onActionClicked (serviceWorkerRestart (setPendingCapture
        { pendingCapture := none, sessionPendingCapture := none, badgeText := "" } 4)) 4).1
        = ClickOutcome.captureAndSend 4
    ∧ (onActionClicked
        { pendingCapture := none, sessionPendingCapture := none, badgeText := "" } 9).1
        = ClickOutcome.toggleSidebar 9 := by
  refine ⟨rfl, ?_, ?_⟩
  · exact (c3_restart_preserves_pending_capture
      { pendingCapture := none, sessionPendingCapture := none, badgeText := "" }
      { pendingCapture := none, sessionPendingCapture := none, badgeText := "" }
      4 9 rfl (fun u hu => by simp at hu)).1
  · exact (c3_restart_preserves_pending_capture
      { pendingCapture := none, sessionPendingCapture := none, badgeText := "" }
      { pendingCapture := none, sessionPendingCapture := none, badgeText := "" }
      4 9 rfl (fun u hu => by simp at hu)).2

/-! ## C10 — one global pending token, cancel clears unconditionally -/

/-- C10: the background keeps a single browser-global pending-capture
record, not one per tab — `prepareCapture` from any tab overwrites
whatever token exists (two prepares leave exactly the second), and
`cancelCapture` from any sender tab unconditionally clears the token
(memory and session storage) and the badge, even when a different tab
armed the capture. -/
theorem c10_single_global_token (s : BackgroundState) (t1 t2 : Nat) :
    onRuntimeMessage s (RuntimeMessage.prepareCapture t2)
      = { pendingCapture := some t2, sessionPendingCapture := some t2,
          badgeText := "📸" }
    ∧ onRuntimeMessage (onRuntimeMessage s (RuntimeMessage.prepareCapture t1))
        (RuntimeMessage.prepareCapture t2)
      = onRuntimeMessage s (RuntimeMessage.prepareCapture t2)
    ∧ onRuntimeMessage (onRuntimeMessage s (RuntimeMessage.prepareCapture t1))
        (RuntimeMessage.cancelCapture t2)
      = { pendingCapture := none, sessionPendingCapture := none, badgeText := "" } :=
  ⟨rfl, rfl, rfl⟩

/-! ## C4 — crop uses the empirical image-to-viewport ratio -/

/-- C4: the crop transform scales the target rectangle by the empirical
per-axis ratio of captured-image pixels to viewport CSS size — the
devicePixelRatio factors cancel, so no double scaling happens at
non-100 percent zoom — and a target rectangle spanning the full viewport
yields a canvas of the viewport CSS dimensions scaled only by the device
pixel ratio whose source rectangle is exactly the whole captured image
(no content shift). -/
theorem c4_crop_empirical_scale (imgW imgH innerW innerH dpr l t w h : ℚ)
    (hW : innerW ≠ 0) (hH : innerH ≠ 0) (hd : dpr ≠ 0) :
    ((cropScreenshotToCanvas imgW imgH innerW innerH dpr l t w h).sourceX
        = l * (imgW / innerW)
      ∧ (cropScreenshotToCanvas imgW imgH innerW innerH dpr l t w h).sourceY
        = t * (imgH / innerH)
      ∧ (cropScreenshotToCanvas imgW imgH innerW innerH dpr l t w h).sourceWidth
        = w * (imgW / innerW)
      ∧ (cropScreenshotToCanvas imgW imgH innerW innerH dpr l t w h).sourceHeight
        = h * (imgH / innerH))
    ∧ ((cropScreenshotToCanvas imgW imgH innerW innerH dpr 0 0 innerW innerH).canvasWidth
        = innerW * dpr
      ∧ (cropScreenshotToCanvas imgW imgH innerW innerH dpr 0 0 innerW innerH).canvasHeight
        = innerH * dpr
      ∧ (cropScreenshotToCanvas imgW imgH innerW innerH dpr 0 0 innerW innerH).sourceX = 0
      ∧ (cropScreenshotToCanvas imgW imgH innerW innerH dpr 0 0 innerW innerH).sourceY = 0
      ∧ (cropScreenshotToCanvas imgW imgH innerW innerH dpr 0 0 innerW innerH).sourceWidth
        = imgW
      ∧ (cropScreenshotToCanvas imgW imgH innerW innerH dpr 0 0 innerW innerH).sourceHeight
        = imgH) := by
  unfold cropScreenshotToCanvas
  refine ⟨⟨?_, ?_, ?_, ?_⟩, ?_, ?_, ?_, ?_, ?_, ?_⟩ <;>
    field_simp <;> ring

/-- Witness for C4 at a 75 percent zoom configuration (image 1500 by 600
pixels over a 1000 by 400 CSS viewport with devicePixelRatio 2, so the
empirical ratio 1.5 differs from the device pixel ratio). -/
theorem c4_crop_empirical_scale_witness :
    (1000 : ℚ) ≠ 0 ∧ (400 : ℚ) ≠ 0 ∧ (2 : ℚ) ≠ 0
    ∧ (cropScreenshotToCanvas 1500 600 1000 400 2 10 20 300 100).sourceX
        = 10 * (1500 / 1000) := by
  refine ⟨by norm_num, by norm_num, by norm_num, ?_⟩
  exact (c4_crop_empirical_scale 1500 600 1000 400 2 10 20 300 100
    (by norm_num) (by norm_num) (by norm_num)).1.1

/-! ## C5 — getReportCanvas fallback (code bug) -/

/-- C5 (code bug evaluation): on a DOM whose elements match none of the
canvas selectors but which contains a single 1000 by 500 div,
`getReportCanvas` as implemented in `content.js` returns that div through
its largest-content-div fallback instead of the null the spec (and the
repository code review, which flags the fallback for removal) requires. -/
theorem c5_fallback_returns_large_div :
    getReportCanvas [{ isDiv := true, sels := [], width := 1000, height := 500 }]
      = some { isDiv := true, sels := [], width := 1000, height := 500 }
    ∧ getReportCanvas [{ isDiv := true, sels := [], width := 1000, height := 500 }]
      ≠ none := by
  have h1 : getReportCanvas [{ isDiv := true, sels := [], width := 1000, height := 500 }]
      = some { isDiv := true, sels := [], width := 1000, height := 500 } := rfl
  refine ⟨h1, ?_⟩
  rw [h1]
  intro h
  cases h

/-! ## C6 — annotation id generation -/

set_option maxRecDepth 8000 in
/-- C6 counterexample: a session that creates 101 annotations within one
clock tick (Date.now() constant at 7) wraps the `% 100` counter, so the
id sequence is neither strictly increasing nor collision-free — the
101st id repeats the first (both 700). -/
theorem c6_ids_counterexample :
    ¬ List.Pairwise (· < ·) (genIds (List.replicate 101 7) 0)
    ∧ ¬ (genIds (List.replicate 101 7) 0).Nodup := by
  constructor
  · intro h
    have h0 : (genIds (List.replicate 101 7) 0).Nodup := h.imp Nat.ne_of_lt
    revert h0
    decide
  · decide

theorem genIds_chain_lt : ∀ (ts : List Nat) (c : Nat),
    List.Chain' (· ≤ ·) ts → c + ts.length ≤ 100 →
    List.Chain' (· < ·) (genIds ts c)
  | [], _, _, _ => by simp [genIds]
  | [_], _, _, _ => by simp [genIds]
  | t1 :: t2 :: ts, c, hmono, hlen => by
      have h12 : t1 ≤ t2 := (List.chain'_cons.mp hmono).1
      have htail : List.Chain' (· ≤ ·) (t2 :: ts) := (List.chain'_cons.mp hmono).2
      have hlen2 : (c + 1) + (t2 :: ts).length ≤ 100 := by
        simp only [List.length_cons] at hlen ⊢
        omega
      have hrec := genIds_chain_lt (t2 :: ts) (c + 1) htail hlen2
      have hc : c % 100 = c := Nat.mod_eq_of_lt (by
        simp only [List.length_cons] at hlen
        omega)
      have hc1 : (c + 1) % 100 = c + 1 := Nat.mod_eq_of_lt (by
        simp only [List.length_cons] at hlen
        omega)
      simp only [genIds, generateAnnotationId] at hrec ⊢
      rw [List.chain'_cons]
      refine ⟨?_, hrec⟩
      rw [hc, hc1]
      omega

/-- C6 amended: the ids returned by `generateAnnotationId` are strictly
increasing (hence collision-free) for every session whose clock readings
are non-decreasing and which creates at most 100 annotations — the
counter starts at 0 and must not wrap past `% 100` within a clock tick,
which a 101st creation in one tick violates. -/
theorem c6_ids_strictly_increasing (ts : List Nat)
    (hmono : List.Pairwise (· ≤ ·) ts) (hlen : ts.length ≤ 100) :
    List.Pairwise (· < ·) (genIds ts 0) := by
  have hchain : List.Chain' (· ≤ ·) ts := List.chain'_iff_pairwise.mpr hmono
  have h := genIds_chain_lt ts 0 hchain (by omega)
  exact List.chain'_iff_pairwise.mp h

/-- Witness for C6 amended: three creations, two sharing clock tick 5,
give the strictly increasing ids 500, 501, 602. -/
theorem c6_ids_strictly_increasing_witness :
    List.Pairwise (· ≤ ·) [5, 5, 6] ∧ ([5, 5, 6] : List Nat).length ≤ 100
    ∧ List.Pairwise (· < ·) (genIds [5, 5, 6] 0) :=
  ⟨by decide, by decide, c6_ids_strictly_increasing [5, 5, 6] (by decide) (by decide)⟩

/-! ## C7 — export pagination -/

theorem maxCommentsPerSlide_eq : maxCommentsPerSlide = 21 := by
  have hfloor : (commentsListH / commentLineH).floor = 21 := by
    have h1 : (21 : ℤ) ≤ (commentsListH / commentLineH).floor := by
      refine Rat.le_floor.mpr ?_
      unfold commentsListH commentLineH pptxContentH pptxContentY pptxTitleH pptxMargin
      norm_num
    have h2 : ¬ (22 : ℤ) ≤ (commentsListH / commentLineH).floor := by
      intro h
      have h3 := Rat.le_floor.mp h
      unfold commentsListH commentLineH pptxContentH pptxContentY pptxTitleH pptxMargin at h3
      norm_num at h3
    omega
  unfold maxCommentsPerSlide
  rw [hfloor]
  rfl

theorem pptxSlideLoop_eq : ∀ (n onSlide slides : ℕ), onSlide ≤ 21 →
    pptxSlideLoop n onSlide slides = slides + ((n - (21 - onSlide)) + 20) / 21
  | 0, onSlide, slides, _ => by
      simp only [pptxSlideLoop]
      omega
  | n + 1, onSlide, slides, h => by
      simp only [pptxSlideLoop, maxCommentsPerSlide_eq]
      by_cases hc : 21 ≤ onSlide
      · rw [if_pos hc]
        rw [pptxSlideLoop_eq n 1 (slides + 1) (by omega)]
        omega
      · rw [if_neg hc]
        rw [pptxSlideLoop_eq n (onSlide + 1) slides (by omega)]
        omega

theorem generatePptxSlideCount_eq (n : ℕ) :
    generatePptxSlideCount n = 1 + ((n - 21) + 20) / 21 := by
  unfold generatePptxSlideCount
  rw [pptxSlideLoop_eq n 0 1 (by omega)]

theorem pdfOneLineAdvance_eq : pdfOneLineAdvance = 8 := by
  unfold pdfOneLineAdvance pdfLineHeight
  rw [show (1 : ℚ) * 4 = 4 by norm_num]
  exact max_eq_left (by norm_num)

theorem pdf_overflow_cont (j : ℕ) :
    (pdfPageH - pdfMargin < (30 + 8 * (j : ℚ)) + pdfLineHeight) ↔ 21 ≤ j := by
  unfold pdfPageH pdfMargin pdfLineHeight
  rw [show ((30 : ℚ) + 8 * (j : ℚ)) + 8 = ((38 + 8 * j : ℕ) : ℚ) by push_cast; ring]
  rw [show (210 : ℚ) - 10 = ((200 : ℕ) : ℚ) by norm_num]
  rw [Nat.cast_lt]
  omega

theorem pdf_overflow_first (i : ℕ) :
    (pdfPageH - pdfMargin < (39 + 8 * (i : ℚ)) + pdfLineHeight) ↔ 20 ≤ i := by
  unfold pdfPageH pdfMargin pdfLineHeight
  rw [show ((39 : ℚ) + 8 * (i : ℚ)) + 8 = ((47 + 8 * i : ℕ) : ℚ) by push_cast; ring]
  rw [show (210 : ℚ) - 10 = ((200 : ℕ) : ℚ) by norm_num]
  rw [Nat.cast_lt]
  omega

theorem pdf_newpage_cursor :
    (pdfMargin + 10 + 10) + pdfOneLineAdvance = 30 + 8 * ((1 : ℕ) : ℚ) := by
  rw [pdfOneLineAdvance_eq]
  unfold pdfMargin
  norm_num

theorem pdfPageLoop_cont_eq : ∀ (n j p : ℕ), j ≤ 21 →
    pdfPageLoop n (30 + 8 * (j : ℚ)) p = pdfNatLoop n (21 - j) p
  | 0, j, p, _ => by simp only [pdfPageLoop, pdfNatLoop]
  | n + 1, j, p, hj => by
      simp only [pdfPageLoop]
      by_cases hc : 21 ≤ j
      · obtain rfl : j = 21 := le_antisymm hj hc
        rw [if_pos ((pdf_overflow_cont 21).mpr hc)]
        rw [pdf_newpage_cursor, pdfPageLoop_cont_eq n 1 (p + 1) (by omega)]
        have h21 : 21 - 21 = 0 := by omega
        rw [h21, pdfNatLoop]
      · rw [if_neg (fun hh => hc ((pdf_overflow_cont j).mp hh))]
        rw [pdfOneLineAdvance_eq]
        rw [show (30 + 8 * (j : ℚ)) + 8 = 30 + 8 * ((j + 1 : ℕ) : ℚ) by push_cast; ring]
        rw [pdfPageLoop_cont_eq n (j + 1) p (by omega)]
        have hsplit : 21 - j = (21 - (j + 1)) + 1 := by omega
        rw [hsplit, pdfNatLoop]

theorem pdfPageLoop_first_eq : ∀ (n i p : ℕ), i ≤ 20 →
    pdfPageLoop n (39 + 8 * (i : ℚ)) p = pdfNatLoop n (20 - i) p
  | 0, i, p, _ => by simp only [pdfPageLoop, pdfNatLoop]
  | n + 1, i, p, hi => by
      simp only [pdfPageLoop]
      by_cases hc : 20 ≤ i
      · obtain rfl : i = 20 := le_antisymm hi hc
        rw [if_pos ((pdf_overflow_first 20).mpr hc)]
        rw [pdf_newpage_cursor, pdfPageLoop_cont_eq n 1 (p + 1) (by omega)]
        have h0 : 20 - 20 = 0 := by omega
        rw [h0, pdfNatLoop]
      · rw [if_neg (fun hh => hc ((pdf_overflow_first i).mp hh))]
        rw [pdfOneLineAdvance_eq]
        rw [show (39 + 8 * (i : ℚ)) + 8 = 39 + 8 * ((i + 1 : ℕ) : ℚ) by push_cast; ring]
        rw [pdfPageLoop_first_eq n (i + 1) p (by omega)]
        have hsplit : 20 - i = (20 - (i + 1)) + 1 := by omega
        rw [hsplit, pdfNatLoop]

theorem pdfNatLoop_eq : ∀ (n cap p : ℕ),
    pdfNatLoop n cap p = p + ((n - cap) + 20) / 21
  | 0, cap, p => by
      simp only [pdfNatLoop]
      omega
  | n + 1, 0, p => by
      rw [pdfNatLoop, pdfNatLoop_eq n 20 (p + 1)]
      omega
  | n + 1, cap + 1, p => by
      rw [pdfNatLoop, pdfNatLoop_eq n cap p]
      omega

theorem generatePdfPageCount_eq (n : ℕ) :
    generatePdfPageCount n = 1 + ((n - 20) + 20) / 21 := by
  unfold generatePdfPageCount
  rw [show pdfCommentsStartY = 39 + 8 * ((0 : ℕ) : ℚ) by
    unfold pdfCommentsStartY pdfContentY pdfMargin
    norm_num]
  rw [pdfPageLoop_first_eq n 0 1 (by omega), pdfNatLoop_eq]

theorem pdfClaimCapacity_eq : pdfClaimCapacity = 20 := by
  have hfloor : (pdfCommentColumnH / pdfLineHeight).floor = 20 := by
    have h1 : (20 : ℤ) ≤ (pdfCommentColumnH / pdfLineHeight).floor := by
      refine Rat.le_floor.mpr ?_
      unfold pdfCommentColumnH pdfCommentsStartY pdfContentY pdfPageH pdfMargin pdfLineHeight
      norm_num
    have h2 : ¬ (21 : ℤ) ≤ (pdfCommentColumnH / pdfLineHeight).floor := by
      intro h
      have h3 := Rat.le_floor.mp h
      unfold pdfCommentColumnH pdfCommentsStartY pdfContentY pdfPageH pdfMargin pdfLineHeight at h3
      norm_num at h3
    omega
  unfold pdfClaimCapacity
  rw [hfloor]
  rfl

/-- C7 counterexample: the claimed page count `ceil(n / floor(H/h))`
fails for the PDF export.  The PDF comment column has height
H = 200 - 39 = 161 mm and line height h = 8 mm, so `floor(H/h) = 20`
(and indeed the first page holds exactly 20 one-line comments, as the
`generatePdfPageCount 21 = 2` conjunct shows — so no other uniform
capacity fits the code either), but at n = 41 the formula predicts
`ceil(41/20) = 3` pages while `generatePdf` produces only 2, because a
continuation page (cursor reset to 30 mm) holds 21 comments. -/
theorem c7_pagination_counterexample :
    pdfClaimCapacity = 20
    ∧ generatePdfPageCount 20 = 1
    ∧ generatePdfPageCount 21 = 2
    ∧ generatePdfPageCount 41 = 2
    ∧ (41 + pdfClaimCapacity - 1) / pdfClaimCapacity = 3 := by
  refine ⟨pdfClaimCapacity_eq, ?_, ?_, ?_, ?_⟩
  · rw [generatePdfPageCount_eq]
  · rw [generatePdfPageCount_eq]
  · rw [generatePdfPageCount_eq]
  · rw [pdfClaimCapacity_eq]

/-- C7 amended: for `n ≥ 1` one-line comments, the PPTX export produces
exactly `ceil(n / floor(H/h)) = ceil(n / 21)` slides (H = 5.95 in,
h = 0.28 in), each overflow slide carrying the repeated title with the
`(continued)` suffix and a reset cursor; the PDF export produces 1 page
for `n ≤ 20` and `1 + ceil((n - 20) / 21)` pages otherwise — its first
page holds 20 one-line comments but continuation pages hold 21, so the
single-capacity formula of the claim does not describe it. -/
theorem c7_pagination_amended (n : ℕ) (h : 1 ≤ n) :
    generatePptxSlideCount n
      = (n + maxCommentsPerSlide - 1) / maxCommentsPerSlide
    ∧ generatePdfPageCount n
      = if n ≤ 20 then 1 else 1 + ((n - 20) + 21 - 1) / 21 := by
  constructor
  · rw [generatePptxSlideCount_eq, maxCommentsPerSlide_eq]
    omega
  · rw [generatePdfPageCount_eq]
    by_cases hn : n ≤ 20
    · rw [if_pos hn]
      omega
    · rw [if_neg hn]
      omega

/-- Witness for C7 amended at n = 45: 3 PPTX slides (21 + 21 + 3) and
3 PDF pages (20 + 21 + 4). -/
theorem c7_pagination_amended_witness :
    1 ≤ 45
    ∧ generatePptxSlideCount 45
      = (45 + maxCommentsPerSlide - 1) / maxCommentsPerSlide
    ∧ generatePdfPageCount 45 = if 45 ≤ 20 then 1 else 1 + ((45 - 20) + 21 - 1) / 21 :=
  ⟨by decide, (c7_pagination_amended 45 (by decide)).1,
    (c7_pagination_amended 45 (by decide)).2⟩

/-! ## C8 — screenshot cache bound and eviction -/

set_option maxRecDepth 4000 in
/-- C8 counterexample: the cache-size bound does not hold after every
write.  The multi-page export path stores the freshly captured
current-page screenshot directly (`screenshotCache[currentKey] = ...`
followed by a persist) with no eviction, so writing a 21st distinct page
key through it leaves 21 persisted entries. -/
theorem c8_cache_bound_counterexample :
    fullCache20.length = 20
    ∧ (multiPageExportCacheWrite fullCache20 "/report/fresh" "img").length = 21 := by
  constructor <;> decide

/-- C8 amended: the bound is enforced only by `cacheCurrentScreenshot`,
whose put keeps a cache of at most 20 entries at most 20, and which on
inserting a fresh key into a full 20-entry cache evicts exactly the
least-recently-inserted entry (the head of the insertion order) before
persisting; the multi-page export write site, by contrast, inserts
without evicting (see the counterexample). -/
theorem c8_cache_eviction (cache : ScreenshotCache) (key img : String) :
    (cache.length ≤ 20 → (cacheCurrentScreenshot cache key img).length ≤ 20)
    ∧ (cache.length = 20 → key ∉ cache.map Prod.fst →
        cacheCurrentScreenshot cache key img = cache.tail ++ [(key, img)]) := by
  constructor
  · intro hlen
    simp only [cacheCurrentScreenshot]
    by_cases hmem : key ∈ cache.map Prod.fst
    · have hl : (jsSet cache key img).length = cache.length :=
        jsSet_length_mem cache key img hmem
      rw [List.length_map, hl, if_neg (by omega)]
      omega
    · have hl : (jsSet cache key img).length = cache.length + 1 :=
        jsSet_length_not_mem cache key img hmem
      by_cases hfull : cache.length = 20
      · rw [List.length_map, hl, hfull, if_pos (by omega)]
        rcases hc : jsSet cache key img with _ | ⟨⟨k0, v0⟩, rest⟩
        · rw [hc] at hl
          simp at hl
        · simp only [List.map_cons]
          rw [jsDelete_cons_self]
          have : ((k0, v0) :: rest).length = 21 := by
            rw [← hc, hl, hfull]
          simp at this
          omega
      · rw [List.length_map, hl, if_neg (by omega)]
        omega
  · intro hfull hmem
    simp only [cacheCurrentScreenshot]
    have happ : jsSet cache key img = cache ++ [(key, img)] :=
      jsSet_not_mem_append cache key img hmem
    have hl : (jsSet cache key img).length = 21 := by
      rw [happ]
      simp [hfull]
    rcases cache with _ | ⟨⟨k0, v0⟩, rest⟩
    · simp at hfull
    · rw [List.length_map, hl, if_pos (by omega)]
      rw [happ]
      simp only [List.cons_append, List.map_cons]
      rw [jsDelete_cons_self]
      rfl

set_option maxRecDepth 4000 in
/-- Witness for C8 amended: putting the fresh key `/report/fresh` into
the full 20-entry cache keeps the size at 20 and drops exactly the
oldest entry `/report/page0`. -/
theorem c8_cache_eviction_witness :
    fullCache20.length ≤ 20
    ∧ "/report/fresh" ∉ fullCache20.map Prod.fst
    ∧ (cacheCurrentScreenshot fullCache20 "/report/fresh" "img").length ≤ 20
    ∧ cacheCurrentScreenshot fullCache20 "/report/fresh" "img"
      = fullCache20.tail ++ [("/report/fresh", "img")] :=
  ⟨by decide, by decide,
    (c8_cache_eviction fullCache20 "/report/fresh" "img").1 (by decide),
    (c8_cache_eviction fullCache20 "/report/fresh" "img").2 (by decide) (by decide)⟩

/-! ## C9 — CSV export rows -/

theorem numberRows_append (A B : List (List String)) :
    ∀ n, numberRows (A ++ B) n = numberRows A n ++ numberRows B (n + A.length) := by
  induction A with
  | nil => intro n; simp [numberRows]
  | cons r rs ih =>
      intro n
      have h := ih (n + 1)
      simp only [List.cons_append, numberRows, List.length_cons]
      rw [show n + (rs.length + 1) = n + 1 + rs.length by omega]
      exact congrArg (List.cons (toString n :: r)) h

theorem pageRows_eq_numberRows (fmt : Nat → String) (name : String) :
    ∀ (anns : List AnnotationRecord) (n : Nat),
    pageRows fmt name anns n
      = numberRows (anns.map (fun a => [name, fmt a.timestamp, a.comment])) n
  | [], _ => rfl
  | a :: rest, n => by
      simp only [pageRows, List.map_cons, numberRows]
      rw [pageRows_eq_numberRows fmt name rest (n + 1)]

theorem buildAllRows_eq_numberRows (fmt : Nat → String) :
    ∀ (pages : List PageData) (n : Nat),
    buildAllRows fmt pages n
      = numberRows
          (pages.flatMap (fun p =>
            p.annotations.map (fun a => [p.name, fmt a.timestamp, a.comment]))) n
  | [], _ => rfl
  | p :: ps, n => by
      simp only [buildAllRows, List.flatMap_cons]
      rw [numberRows_append, pageRows_eq_numberRows fmt p.name p.annotations n,
        buildAllRows_eq_numberRows fmt ps (n + p.annotations.length),
        List.length_map]

/-- C9: the spreadsheet export flattens one (number, page-label, date,
comment) row per annotation, page by page with each page in insertion
order, numbered by one global counter starting at 1 and carried across
pages (`buildAllRows` equals the spec-side `specCsvRows` for every input);
on the section-8 scenario (comments A and B on one page, C on a second)
the full CSV is the header plus rows numbered 1, 2, 3 with the first two
carrying the first page label and the third the second; and a field
containing a comma or quote is wrapped in quotes with internal quotes
doubled while a plain field is left bare. -/
theorem c9_csv_rows (fmt : Nat → String) (pages : List PageData) :
    buildAllRows fmt pages 1 = specCsvRows fmt pages
    ∧ buildCsvRows (fun _ => "1/2/2024")
        [{ name := "Label r1", annotations := [⟨1, "A", 100⟩, ⟨2, "B", 200⟩] },
         { name := "Label r2", annotations := [⟨3, "C", 300⟩] }]
      = "No,Page Name,Date,Comment\n1,Label r1,1/2/2024,A\n2,Label r1,1/2/2024,B\n3,Label r2,1/2/2024,C"
    ∧ escapeCsvCell "say \"hi\", ok" = "\"say \"\"hi\"\", ok\""
    ∧ escapeCsvCell "plain" = "plain" := by
  refine ⟨buildAllRows_eq_numberRows fmt pages 1, by decide, by decide, by decide⟩

end PowerBIAnnotator
